import Mathlib

/-!
Shallow embedding of `prometheus_sanic/base.py` (and, where that module
delegates to files of the same package that are not part of the source
tree, of the behaviour its specification documents for them).

The embedding models:
* requests, responses and the metrics state touched by the request hooks;
* the request/response middleware registered by `monitor` (lines 132-141),
* the exclusion policy (scrape path, OPTIONS method),
* `MonitorSetup` with `expose_endpoint`, `start_server`, `_get_metrics_data`,
* the multiprocess switch (presence of `prometheus_multiproc_dir`),
* the `after_server_stop` listener calling `mark_process_dead(os.getpid())`,
* the `url:n` endpoint-truncation resolver.
-/

namespace PrometheusSanic

/-- Label/value pairs attached to a metric sample. -/
abbrev Labels := List (String × String)

/-- The part of a Sanic request the instrumentation reads. -/
structure Request where
  path : String
  method : String
deriving DecidableEq

/-- The part of a Sanic response the instrumentation reads. -/
structure Response where
  status : Nat
deriving DecidableEq

/-- Per-request context created by the before-hook (the monotonic start
timestamp, modelled as a natural number of clock ticks). -/
structure RequestCtx where
  startTime : Nat
deriving DecidableEq

/-- The samples accumulated by the two default instruments the hooks touch:
the request-duration histogram observations and the request-count counter
increments, each carried with its label set. -/
structure MetricsState where
  durationSamples : List (Labels × Nat)
  countIncs : List Labels
deriving DecidableEq

/-- Modelled from the spec: the declared label names of the request-duration
histogram (`metrics.py`/`constants.py` are not in the source tree; spec
section 4.2 declares labels endpoint, method). -/
def durationLabelNames : List String := ["endpoint", "method"]

/-- Modelled from the spec: the declared label names of the request-count
counter (spec section 4.2: endpoint, method, status-class). -/
def countLabelNames : List String := ["endpoint", "method", "status"]

/-- Modelled from the spec: map a numeric status to its status-class bucket
(spec section 4.3: "2xx/4xx/5xx"). -/
def statusClass (s : Nat) : String := toString (s / 100) ++ "xx"

/-- Modelled from the spec: `handlers.before_request_handler` (`handlers.py`
is not in the source tree; spec section 4.3: the before-hook records a
monotonic start timestamp into the request's context). -/
def before_request_handler (now : Nat) (_ctx : Option RequestCtx) :
    Option RequestCtx :=
  some ⟨now⟩

/-- Modelled from the spec: `handlers.after_request_endpoint_handler`
(`handlers.py` is not in the source tree; spec section 4.3: compute
elapsed = now - start, resolve the endpoint label, map the status to its
class, record one duration observation and one count increment with the
full label set; if the context is missing, skip silently). -/
def after_request_endpoint_handler (now : Nat) (ctx : Option RequestCtx)
    (r : Request) (resp : Response) (getEndpoint : Request → String)
    (st : MetricsState) : MetricsState :=
  match ctx with
  | none => st
  | some c =>
    { durationSamples := st.durationSamples ++
        [([("endpoint", getEndpoint r), ("method", r.method)], now - c.startTime)]
      countIncs := st.countIncs ++
        [[("endpoint", getEndpoint r), ("method", r.method),
          ("status", statusClass resp.status)]] }

/-- The condition of base.py lines 135 and 140 under which the registered
middleware invokes the handler:
`request.path != metrics_path and request.method != "OPTIONS"`. -/
def middlewareRuns (metricsPath : String) (r : Request) : Bool :=
  (r.path != metricsPath) && (r.method != "OPTIONS")

/-- The request middleware of base.py lines 133-136: when the request is not
excluded, run the before-handler on the request's context. -/
def before_request (metricsPath : String) (now : Nat) (r : Request)
    (ctx : Option RequestCtx) : Option RequestCtx :=
  if middlewareRuns metricsPath r then before_request_handler now ctx else ctx

/-- The response middleware of base.py lines 138-141: when the request is not
excluded, run the after-handler. -/
def before_response (metricsPath : String) (getEndpoint : Request → String)
    (now : Nat) (r : Request) (resp : Response) (ctx : Option RequestCtx)
    (st : MetricsState) : MetricsState :=
  if middlewareRuns metricsPath r then
    after_request_endpoint_handler now ctx r resp getEndpoint st
  else st

/-- One completed request/response cycle as the server drives it: the request
middleware runs before dispatch (only when middleware registration was
requested, base.py line 132), the handler executes, the response middleware
runs after dispatch.  `t0` and `t1` are the clock readings at the two hooks. -/
def processRequest (is_middleware : Bool) (metricsPath : String)
    (getEndpoint : Request → String) (t0 t1 : Nat) (r : Request)
    (resp : Response) (st : MetricsState) : MetricsState :=
  let ctx : Option RequestCtx :=
    if is_middleware then before_request metricsPath t0 r none else none
  if is_middleware then
    before_response metricsPath getEndpoint t1 r resp ctx st
  else st

/-- Observable events of one request/response cycle, in order. -/
inductive Event where
  | beforeHook
  | dispatch
  | afterHook
deriving DecidableEq

/-- The ordered event trace of one request: the before-hook runs (at most
once) before dispatch, the after-hook (at most once) after dispatch, each
exactly when middleware is registered and the request is not excluded. -/
def requestTrace (is_middleware : Bool) (metricsPath : String) (r : Request) :
    List Event :=
  (if is_middleware && middlewareRuns metricsPath r then [Event.beforeHook] else [])
    ++ [Event.dispatch]
    ++ (if is_middleware && middlewareRuns metricsPath r then [Event.afterHook] else [])

/-- One sample of a collector: metric name, label set, accumulated value. -/
structure Sample where
  name : String
  labels : Labels
  value : Int
deriving DecidableEq

/-- A worker's file-backed shard: the samples that worker accumulated. -/
abbrev Shard := List Sample

/-- A collector yields a list of samples when collected. -/
structure Collector where
  samples : List Sample
deriving DecidableEq

/-- `prometheus_client.CollectorRegistry`: a bag of registered collectors. -/
structure CollectorRegistry where
  collectors : List Collector
deriving DecidableEq

/-- Add one sample into an accumulator, merging values with any sample that
already carries the same metric name and label set. -/
def addSample (acc : List Sample) (s : Sample) : List Sample :=
  match acc with
  | [] => [s]
  | a :: rest =>
    if a.name = s.name ∧ a.labels = s.labels then
      { a with value := a.value + s.value } :: rest
    else a :: addSample rest s

/-- Element-wise sum of all shards, keyed by metric name and label set. -/
def aggregateShards (shards : List Shard) : List Sample :=
  shards.flatten.foldl addSample []

/-- `prometheus_client.multiprocess.MultiProcessCollector(registry)`: the
collector that, when collected, aggregates every shard currently present. -/
def MultiProcessCollector (shards : List Shard) : Collector :=
  ⟨aggregateShards shards⟩

/-- All samples a registry yields when collected, in registration order. -/
def registrySamples (reg : CollectorRegistry) : List Sample :=
  (reg.collectors.map Collector.samples).flatten

/-- Text-exposition serialization of one label set. -/
def serializeLabels (l : Labels) : String :=
  "\x7b" ++ String.intercalate "," (l.map (fun kv => kv.1 ++ "=" ++ kv.2)) ++ "\x7d"

/-- Text-exposition serialization of one sample. -/
def serializeSample (s : Sample) : String :=
  s.name ++ serializeLabels s.labels ++ " " ++ toString s.value ++ "\n"

/-- `prometheus_client.exposition.generate_latest`: serialize a registry's
samples into the text exposition format. -/
def generate_latest (reg : CollectorRegistry) : String :=
  String.join ((registrySamples reg).map serializeSample)

/-- The standard Prometheus text-format content type
(`prometheus_client.CONTENT_TYPE_LATEST`). -/
def CONTENT_TYPE_LATEST : String := "text/plain; version=0.0.4; charset=utf-8"

/-- An HTTP response produced by `sanic.response.raw`. -/
structure HTTPResponse where
  body : String
  content_type : String
deriving DecidableEq

/-- `sanic.response.raw(data, content_type=...)`. -/
def raw (body : String) (content_type : String) : HTTPResponse :=
  ⟨body, content_type⟩

/-- Tags for the two middlewares `monitor` may register (base.py 132-141). -/
inductive MiddlewareTag where
  | metricsBefore
  | metricsAfter
deriving DecidableEq

/-- The configuration `monitor` closes over in its `before_server_start`
listener and hands to `metrics.init` (base.py 122-130). -/
structure BeforeStartCfg where
  latency_buckets : Option (List Nat)
  multiprocess_mode : String
  metrics_list : Option (List String)
deriving DecidableEq

/-- Tags for the listeners `monitor` registers: the `before_server_start`
initializer and, in multiprocess mode, the `after_server_stop` hook that
calls `mark_process_dead(os.getpid())` (base.py 143-146). -/
inductive ListenerTag where
  | beforeStart (cfg : BeforeStartCfg)
  | afterStopMarkDead
deriving DecidableEq

/-- Whether a listener is the shutdown shard-cleanup hook. -/
def ListenerTag.isAfterStop : ListenerTag → Bool
  | ListenerTag.afterStopMarkDead => true
  | _ => false

/-- A registered route: its path and accepted HTTP verbs. -/
structure Route where
  path : String
  methods : List String
deriving DecidableEq

/-- The registration state of a Sanic app that `monitor` touches. -/
structure App where
  routes : List Route
  requestMiddlewares : List MiddlewareTag
  responseMiddlewares : List MiddlewareTag
  listeners : List ListenerTag
deriving DecidableEq

/-- The configuration error type of the package (`exceptions.py` holds only
this class; its message is carried verbatim). -/
inductive SanicPrometheusError where
  | err (msg : String)
deriving DecidableEq

/-- The state of standalone metric listeners bound via
`prometheus_client.start_http_server`. -/
structure ServerState where
  listeners : List (String × Nat)
deriving DecidableEq

/-- `MonitorSetup.__init__(app, metrics_path, multiprocess_on)`. -/
structure MonitorSetup where
  app : App
  metricsPath : String
  multiprocessOn : Bool
deriving DecidableEq

/-- `MonitorSetup.expose_endpoint` (base.py 20-32): register a route at the
metrics path accepting the GET method only. -/
def MonitorSetup.expose_endpoint (m : MonitorSetup) : MonitorSetup :=
  { m with app := { m.app with
      routes := m.app.routes ++ [{ path := m.metricsPath, methods := ["GET"] }] } }

/-- `MonitorSetup.start_server` (base.py 34-48): raise a
`SanicPrometheusError` when multiprocess mode is on, otherwise bind a
standalone listener via `start_http_server(addr, port)`.  The returned pair
is the server state after the call and the raised error, if any. -/
def MonitorSetup.start_server (m : MonitorSetup) (addr : String) (port : Nat)
    (st : ServerState) : ServerState × Option SanicPrometheusError :=
  if m.multiprocessOn then
    (st, some (SanicPrometheusError.err
      "start_server can not be used when multiprocessing is turned on"))
  else
    ({ listeners := st.listeners ++ [(addr, port)] }, none)

/-- `MonitorSetup._get_metrics_data` (base.py 50-57): in single-process mode
serialize the process-global default registry `core.REGISTRY` (passed in as
`globalReg`); in multiprocess mode build a fresh `CollectorRegistry`, attach
a `MultiProcessCollector` over the shards currently present, and serialize
that. -/
def MonitorSetup._get_metrics_data (m : MonitorSetup)
    (globalReg : CollectorRegistry) (shards : List Shard) : String :=
  if !m.multiprocessOn then
    generate_latest globalReg
  else
    generate_latest { collectors := [MultiProcessCollector shards] }

/-- One scrape, as a transformation of the setup object: serve the metrics
data and keep the setup (which holds no registry) as it was. -/
def MonitorSetup.scrape (m : MonitorSetup) (globalReg : CollectorRegistry)
    (shards : List Shard) : String × MonitorSetup :=
  (m._get_metrics_data globalReg shards, m)

/-- The handler `expose_metrics` registered by `expose_endpoint` (base.py
30-32): respond with the serialized metrics data and the standard
content type. -/
def expose_metrics (m : MonitorSetup) (globalReg : CollectorRegistry)
    (shards : List Shard) : HTTPResponse :=
  raw (m._get_metrics_data globalReg shards) CONTENT_TYPE_LATEST

/-- The built-in endpoint-label strategies of `endpoint.fn_by_type`. -/
inductive EndpointStrategy where
  | url
  | urlTruncate (n : Nat)
  | custom
deriving DecidableEq

/-- Modelled from the spec: the strategy selection of `endpoint.fn_by_type`
(`endpoint.py` is not in the source tree; base.py line 111 calls it and its
docstring plus spec section 4.1 describe it): `url` returns the raw path,
`url:n` truncates to `n` path elements, `custom` uses the caller-supplied
function and is a configuration error when no function was supplied. -/
def fn_by_type (endpoint_type : String) (hasGetEndpointFn : Bool) :
    Except SanicPrometheusError EndpointStrategy :=
  if endpoint_type = "url" then Except.ok EndpointStrategy.url
  else if endpoint_type = "custom" then
    (if hasGetEndpointFn then Except.ok EndpointStrategy.custom
     else Except.error (SanicPrometheusError.err
       "custom endpoint function is not provided"))
  else if endpoint_type.startsWith "url:" then
    match (endpoint_type.drop 4).toNat? with
    | some n => Except.ok (EndpointStrategy.urlTruncate n)
    | none => Except.error (SanicPrometheusError.err "unknown endpoint type")
  else Except.error (SanicPrometheusError.err "unknown endpoint type")

/-- Modelled from the spec: the segment splitter of the `url:n` resolver
(spec section 4.1: "splits the path on its segment separator" keeping
non-empty segments).  `acc` carries the characters of the segment currently
being read, in reverse. -/
def segsAux : List Char → List Char → List (List Char)
  | [], acc => if acc = [] then [] else [acc.reverse]
  | c :: cs, acc =>
    if c = '/' then
      (if acc = [] then segsAux cs [] else acc.reverse :: segsAux cs [])
    else segsAux cs (c :: acc)

/-- The non-empty `/`-separated segments of a path. -/
def pathSegments (p : List Char) : List (List Char) := segsAux p []

/-- Rejoin segments with a leading separator (spec section 4.1:
"rejoins with a leading separator"). -/
def joinSegments (l : List (List Char)) : List Char :=
  l.foldr (fun s acc => '/' :: (s ++ acc)) []

/-- Modelled from the spec: the `url:n` truncating resolver of `endpoint.py`
(spec section 4.1: keep at most the first `n` non-empty segments, rejoin
with a leading separator; a path with at most `n` segments is returned
unchanged). -/
def urlTruncate (n : Nat) (p : List Char) : List Char :=
  if (pathSegments p).length ≤ n then p
  else joinSegments ((pathSegments p).take n)

/-- The `url:n` resolver on strings, as it is applied to `request.path`. -/
def urlTruncateStr (n : Nat) (p : String) : String :=
  String.mk (urlTruncate n p.toList)

/-- The resolver returned by `fn_by_type`, applied to a request. -/
def resolveEndpoint (strategy : EndpointStrategy)
    (customFn : Request → String) (r : Request) : String :=
  match strategy with
  | EndpointStrategy.url => r.path
  | EndpointStrategy.urlTruncate n => urlTruncateStr n r.path
  | EndpointStrategy.custom => customFn r

/-- `monitor` (base.py 60-148): multiprocess mode is on exactly when the
`prometheus_multiproc_dir` environment variable is present
(`envHasMultiprocDir`); the endpoint strategy is resolved (raising on a bad
configuration); a `before_server_start` listener carrying the metric
initialization configuration is always registered; the two request/response
middlewares are registered only when `is_middleware` is `True`; the
`after_server_stop` shard-cleanup listener is registered only in
multiprocess mode; finally a `MonitorSetup` over the app is returned. -/
def monitor (app : App) (envHasMultiprocDir : Bool) (endpoint_type : String)
    (hasGetEndpointFn : Bool) (latency_buckets : Option (List Nat))
    (multiprocess_mode : String) (metrics_path : String)
    (is_middleware : Bool) (metrics_list : Option (List String)) :
    Except SanicPrometheusError MonitorSetup :=
  let multiprocess_on := envHasMultiprocDir
  match fn_by_type endpoint_type hasGetEndpointFn with
  | Except.error e => Except.error e
  | Except.ok _strategy =>
    let newApp : App :=
      { routes := app.routes
        requestMiddlewares := app.requestMiddlewares ++
          (if is_middleware then [MiddlewareTag.metricsBefore] else [])
        responseMiddlewares := app.responseMiddlewares ++
          (if is_middleware then [MiddlewareTag.metricsAfter] else [])
        listeners := app.listeners ++
          [ListenerTag.beforeStart ⟨latency_buckets, multiprocess_mode, metrics_list⟩] ++
          (if multiprocess_on then [ListenerTag.afterStopMarkDead] else []) }
    Except.ok { app := newApp, metricsPath := metrics_path,
                multiprocessOn := multiprocess_on }

/-- `prometheus_client.multiprocess.mark_process_dead(pid)`: the shard of
the given process identifier is removed from the shared-storage area. -/
def mark_process_dead (pid : Nat) (shards : List (Nat × Shard)) :
    List (Nat × Shard) :=
  shards.filter (fun q => q.1 != pid)

/-- Run the app's `after_server_stop` listeners on graceful shutdown: when
the shard-cleanup hook is registered, the worker marks its own shard dead
with its own process identifier. -/
def runAfterStop (a : App) (ownPid : Nat) (shards : List (Nat × Shard)) :
    List (Nat × Shard) :=
  if a.listeners.any ListenerTag.isAfterStop then mark_process_dead ownPid shards
  else shards

/-! ## Theorems -/

/-- C1: with middleware enabled, a completed request that is not excluded by
policy (path differs from the metrics path, method is not OPTIONS) runs the
before-hook exactly once before dispatch and the after-hook exactly once
after dispatch, so exactly one duration sample and one count increment are
appended, each carrying a total assignment of the metric's declared label
names. -/
theorem nonexcluded_request_instrumented_once
    (p : String) (ge : Request → String) (t0 t1 : Nat) (r : Request)
    (resp : Response) (st : MetricsState)
    (hp : r.path ≠ p) (hm : r.method ≠ "OPTIONS") :
    requestTrace true p r = [Event.beforeHook, Event.dispatch, Event.afterHook] ∧
    processRequest true p ge t0 t1 r resp st =
      { durationSamples := st.durationSamples ++
          [([("endpoint", ge r), ("method", r.method)], t1 - t0)]
        countIncs := st.countIncs ++
          [[("endpoint", ge r), ("method", r.method),
            ("status", statusClass resp.status)]] } ∧
    ([("endpoint", ge r), ("method", r.method)] : Labels).map Prod.fst =
      durationLabelNames ∧
    ([("endpoint", ge r), ("method", r.method),
      ("status", statusClass resp.status)] : Labels).map Prod.fst =
      countLabelNames := by
  have hrun : middlewareRuns p r = true := by
    simp [middlewareRuns, hp, hm]
  refine ⟨?_, ?_, by simp [durationLabelNames], by simp [countLabelNames]⟩
  · simp [requestTrace, hrun]
  · simp [processRequest, before_request, before_response, hrun,
      before_request_handler, after_request_endpoint_handler]

/-- Witness for C1 at a concrete non-excluded request. -/
theorem nonexcluded_request_instrumented_once_witness :
    ("/users/42/orders" : String) ≠ "/metrics" ∧
    ("GET" : String) ≠ "OPTIONS" ∧
    requestTrace true "/metrics" ⟨"/users/42/orders", "GET"⟩ =
      [Event.beforeHook, Event.dispatch, Event.afterHook] ∧
    processRequest true "/metrics" (fun _ => "/users") 5 12
        ⟨"/users/42/orders", "GET"⟩ ⟨200⟩ ⟨[], []⟩ =
      ⟨[([("endpoint", "/users"), ("method", "GET")], 7)],
       [[("endpoint", "/users"), ("method", "GET"), ("status", "2xx")]]⟩ := by
  have h := nonexcluded_request_instrumented_once "/metrics" (fun _ => "/users")
    5 12 ⟨"/users/42/orders", "GET"⟩ ⟨200⟩ ⟨[], []⟩ (by decide) (by decide)
  exact ⟨by decide, by decide, h.1, h.2.1⟩

/-- C2: a request excluded by policy (its path is the metrics path, or its
method is OPTIONS) runs neither hook, so its trace holds only the dispatch
and the metrics state is unchanged, whether or not middleware was
registered. -/
theorem excluded_request_leaves_metrics_unchanged (is_mw : Bool) (p : String)
    (ge : Request → String) (t0 t1 : Nat) (r : Request) (resp : Response)
    (st : MetricsState) (hex : r.path = p ∨ r.method = "OPTIONS") :
    requestTrace is_mw p r = [Event.dispatch] ∧
    processRequest is_mw p ge t0 t1 r resp st = st := by
  have hrun : middlewareRuns p r = false := by
    cases hex with
    | inl h => simp [middlewareRuns, h]
    | inr h => simp [middlewareRuns, h]
  constructor
  · simp [requestTrace, hrun]
  · cases is_mw <;> simp [processRequest, before_response, hrun]

/-- Witness for C2 at a concrete scrape-path request. -/
theorem excluded_request_leaves_metrics_unchanged_witness :
    (("/metrics" : String) = "/metrics" ∨ ("GET" : String) = "OPTIONS") ∧
    requestTrace true "/metrics" ⟨"/metrics", "GET"⟩ = [Event.dispatch] ∧
    processRequest true "/metrics" (fun _ => "/metrics") 3 9
        ⟨"/metrics", "GET"⟩ ⟨200⟩ ⟨[], []⟩ = ⟨[], []⟩ :=
  ⟨Or.inl rfl,
   excluded_request_leaves_metrics_unchanged true "/metrics"
     (fun _ => "/metrics") 3 9 ⟨"/metrics", "GET"⟩ ⟨200⟩ ⟨[], []⟩ (Or.inl rfl)⟩

/-- C3: `start_server` raises a `SanicPrometheusError` if and only if
multiprocess mode is on; on the error path the server state is unchanged
(no listener is bound), and otherwise exactly the requested standalone
listener is bound and no error is raised. -/
theorem start_server_raises_iff_multiprocess (m : MonitorSetup) (addr : String)
    (port : Nat) (st : ServerState) :
    (m.multiprocessOn = true →
      m.start_server addr port st =
        (st, some (SanicPrometheusError.err
          "start_server can not be used when multiprocessing is turned on"))) ∧
    (m.multiprocessOn = false →
      m.start_server addr port st =
        ({ listeners := st.listeners ++ [(addr, port)] }, none)) ∧
    ((m.start_server addr port st).2.isSome ↔ m.multiprocessOn = true) := by
  cases h : m.multiprocessOn <;>
    simp [MonitorSetup.start_server, h]

/-- Witness for C3 on both sides of the multiprocess switch. -/
theorem start_server_raises_iff_multiprocess_witness :
    ((MonitorSetup.mk ⟨[], [], [], []⟩ "/metrics" true).start_server "" 8000
        ⟨[]⟩).2.isSome = true ∧
    ((MonitorSetup.mk ⟨[], [], [], []⟩ "/metrics" true).start_server "" 8000
        ⟨[]⟩).1 = ⟨[]⟩ ∧
    ((MonitorSetup.mk ⟨[], [], [], []⟩ "/metrics" false).start_server "" 8000
        ⟨[]⟩) = (⟨[("", 8000)]⟩, none) := by
  have h1 := (start_server_raises_iff_multiprocess
    (MonitorSetup.mk ⟨[], [], [], []⟩ "/metrics" true) "" 8000 ⟨[]⟩).1 rfl
  have h2 := ((start_server_raises_iff_multiprocess
    (MonitorSetup.mk ⟨[], [], [], []⟩ "/metrics" false) "" 8000 ⟨[]⟩).2).1 rfl
  refine ⟨?_, ?_, h2⟩
  · rw [h1]; rfl
  · rw [h1]

/-- C4: a scrape never mutates the setup object — no aggregate registry is
persisted between scrapes; in multiprocess mode the served data is the
serialization of a fresh transient registry holding exactly the
multiprocess collector over the shards currently present, and in
single-process mode it is the serialization of the process-local registry. -/
theorem scrape_uses_transient_registry (m : MonitorSetup)
    (globalReg : CollectorRegistry) (shards : List Shard) :
    (m.scrape globalReg shards).2 = m ∧
    (m.multiprocessOn = true →
      (m.scrape globalReg shards).1 =
        generate_latest { collectors := [MultiProcessCollector shards] }) ∧
    (m.multiprocessOn = false →
      (m.scrape globalReg shards).1 = generate_latest globalReg) := by
  refine ⟨rfl, ?_, ?_⟩ <;> intro h <;>
    simp [MonitorSetup.scrape, MonitorSetup._get_metrics_data, h]

/-- Witness for C4 at concrete registries in both modes. -/
theorem scrape_uses_transient_registry_witness :
    ((MonitorSetup.mk ⟨[], [], [], []⟩ "/metrics" true).scrape ⟨[]⟩
        [[⟨"req_count", [("endpoint", "/a")], 2⟩]]).2 =
      MonitorSetup.mk ⟨[], [], [], []⟩ "/metrics" true ∧
    ((MonitorSetup.mk ⟨[], [], [], []⟩ "/metrics" true).scrape ⟨[]⟩
        [[⟨"req_count", [("endpoint", "/a")], 2⟩]]).1 =
      generate_latest { collectors :=
        [MultiProcessCollector [[⟨"req_count", [("endpoint", "/a")], 2⟩]]] } ∧
    ((MonitorSetup.mk ⟨[], [], [], []⟩ "/metrics" false).scrape
        ⟨[⟨[⟨"other", [], 1⟩]⟩]⟩ []).1 =
      generate_latest ⟨[⟨[⟨"other", [], 1⟩]⟩]⟩ := by
  refine ⟨(scrape_uses_transient_registry _ _ _).1, ?_, ?_⟩
  · exact (scrape_uses_transient_registry
      (MonitorSetup.mk ⟨[], [], [], []⟩ "/metrics" true) ⟨[]⟩
      [[⟨"req_count", [("endpoint", "/a")], 2⟩]]).2.1 rfl
  · exact (scrape_uses_transient_registry
      (MonitorSetup.mk ⟨[], [], [], []⟩ "/metrics" false)
      ⟨[⟨[⟨"other", [], 1⟩]⟩]⟩ []).2.2 rfl

/-- C5: `expose_endpoint` registers exactly one route, at the configured
metrics path, for the GET verb only; the handler it installs responds with
the text-exposition serialization of the aggregated (multiprocess) or local
(single-process) registry under the standard Prometheus text content
type. -/
theorem expose_endpoint_registers_get_route (m : MonitorSetup)
    (globalReg : CollectorRegistry) (shards : List Shard) :
    (m.expose_endpoint).app.routes =
      m.app.routes ++ [{ path := m.metricsPath, methods := ["GET"] }] ∧
    (expose_metrics m globalReg shards).content_type = CONTENT_TYPE_LATEST ∧
    (expose_metrics m globalReg shards).body =
      (if m.multiprocessOn then
        generate_latest { collectors := [MultiProcessCollector shards] }
      else generate_latest globalReg) := by
  refine ⟨rfl, rfl, ?_⟩
  cases h : m.multiprocessOn <;>
    simp [expose_metrics, raw, MonitorSetup._get_metrics_data, h]

/-- Witness for C5 at a concrete setup. -/
theorem expose_endpoint_registers_get_route_witness :
    ((MonitorSetup.mk ⟨[], [], [], []⟩ "/metrics" false).expose_endpoint).app.routes =
      [{ path := "/metrics", methods := ["GET"] }] ∧
    (expose_metrics (MonitorSetup.mk ⟨[], [], [], []⟩ "/metrics" false)
        ⟨[⟨[⟨"req_count", [("endpoint", "/a")], 2⟩]⟩]⟩ []).content_type =
      CONTENT_TYPE_LATEST ∧
    (expose_metrics (MonitorSetup.mk ⟨[], [], [], []⟩ "/metrics" false)
        ⟨[⟨[⟨"req_count", [("endpoint", "/a")], 2⟩]⟩]⟩ []).body =
      generate_latest ⟨[⟨[⟨"req_count", [("endpoint", "/a")], 2⟩]⟩]⟩ := by
  have h := expose_endpoint_registers_get_route
    (MonitorSetup.mk ⟨[], [], [], []⟩ "/metrics" false)
    ⟨[⟨[⟨"req_count", [("endpoint", "/a")], 2⟩]⟩]⟩ []
  exact ⟨h.1, h.2.1, h.2.2⟩

/-- C7: `monitor` registers the `after_server_stop` shard-cleanup hook if
and only if multiprocess mode is active (on an app that had no such hook);
when it is registered, graceful shutdown marks exactly the worker's own
shard dead, keyed by its own process identifier, and in single-process mode
shutdown leaves the shard area untouched. -/
theorem shutdown_hook_iff_multiprocess (app : App) (env : Bool)
    (et : String) (hfn : Bool) (lb : Option (List Nat)) (mpm : String)
    (mp : String) (mw : Bool) (ml : Option (List String)) (s : MonitorSetup)
    (pid : Nat) (shards : List (Nat × Shard))
    (hclean : app.listeners.any ListenerTag.isAfterStop = false)
    (hok : monitor app env et hfn lb mpm mp mw ml = Except.ok s) :
    s.app.listeners.any ListenerTag.isAfterStop = env ∧
    (env = true → runAfterStop s.app pid shards =
      shards.filter (fun q => q.1 != pid)) ∧
    (env = false → runAfterStop s.app pid shards = shards) := by
  cases hfb : fn_by_type et hfn with
  | error e => simp [monitor, hfb] at hok
  | ok strat =>
    simp only [monitor, hfb, Except.ok.injEq] at hok
    subst hok
    have hany : (app.listeners ++
        [ListenerTag.beforeStart ⟨lb, mpm, ml⟩] ++
        (if env then [ListenerTag.afterStopMarkDead] else [])).any
          ListenerTag.isAfterStop = env := by
      cases env <;> simp [List.any_append, hclean, ListenerTag.isAfterStop]
    refine ⟨hany, ?_, ?_⟩ <;> intro h <;> subst h <;>
      simp [runAfterStop, mark_process_dead, List.any_append, hclean,
        ListenerTag.isAfterStop]

/-- Witness for C7: a concrete `monitor` call in multiprocess mode. -/
theorem shutdown_hook_iff_multiprocess_witness :
    (App.mk [] [] [] []).listeners.any ListenerTag.isAfterStop = false ∧
    monitor ⟨[], [], [], []⟩ true "url" false none "all" "/metrics" true none =
      Except.ok ⟨⟨[], [MiddlewareTag.metricsBefore], [MiddlewareTag.metricsAfter],
        [ListenerTag.beforeStart ⟨none, "all", none⟩,
         ListenerTag.afterStopMarkDead]⟩, "/metrics", true⟩ ∧
    runAfterStop ⟨[], [MiddlewareTag.metricsBefore], [MiddlewareTag.metricsAfter],
        [ListenerTag.beforeStart ⟨none, "all", none⟩,
         ListenerTag.afterStopMarkDead]⟩ 7
        [(7, [⟨"req_count", [], 1⟩]), (9, [⟨"req_count", [], 3⟩])] =
      [(9, [⟨"req_count", [], 3⟩])] := by
  refine ⟨by decide, rfl, ?_⟩
  have h := shutdown_hook_iff_multiprocess ⟨[], [], [], []⟩ true "url" false
    none "all" "/metrics" true none
    ⟨⟨[], [MiddlewareTag.metricsBefore], [MiddlewareTag.metricsAfter],
      [ListenerTag.beforeStart ⟨none, "all", none⟩,
       ListenerTag.afterStopMarkDead]⟩, "/metrics", true⟩ 7
    [(7, [⟨"req_count", [], 1⟩]), (9, [⟨"req_count", [], 3⟩])]
    (by decide) rfl
  simpa using h.2.1 rfl

/-- C8: whether the process is in multiprocess mode is decided solely by the
presence of the environment variable when `monitor` is called; two calls
differing only in the `multiprocess_mode` parameter agree on the
multiprocess flag, on whether the shutdown shard-cleanup hook is
registered and what it does, on every scrape's data, and on the outcome of
`start_server`. -/
theorem multiprocess_mode_param_no_influence (app : App) (env : Bool)
    (et : String) (hfn : Bool) (lb : Option (List Nat)) (mpm1 mpm2 : String)
    (mp : String) (mw : Bool) (ml : Option (List String)) (s1 s2 : MonitorSetup)
    (h1 : monitor app env et hfn lb mpm1 mp mw ml = Except.ok s1)
    (h2 : monitor app env et hfn lb mpm2 mp mw ml = Except.ok s2) :
    s1.multiprocessOn = env ∧ s2.multiprocessOn = env ∧
    s1.app.listeners.any ListenerTag.isAfterStop =
      s2.app.listeners.any ListenerTag.isAfterStop ∧
    (∀ g shards, s1._get_metrics_data g shards = s2._get_metrics_data g shards) ∧
    (∀ addr port st, s1.start_server addr port st = s2.start_server addr port st) ∧
    (∀ pid shards, runAfterStop s1.app pid shards = runAfterStop s2.app pid shards) := by
  cases hfb : fn_by_type et hfn with
  | error e => simp [monitor, hfb] at h1
  | ok strat =>
    simp only [monitor, hfb, Except.ok.injEq] at h1 h2
    subst h1; subst h2
    have hany : ∀ mpm : String, (app.listeners ++
        [ListenerTag.beforeStart ⟨lb, mpm, ml⟩] ++
        (if env then [ListenerTag.afterStopMarkDead] else [])).any
          ListenerTag.isAfterStop =
        (app.listeners.any ListenerTag.isAfterStop || env) := by
      intro mpm
      cases env <;> simp [List.any_append, ListenerTag.isAfterStop]
    refine ⟨rfl, rfl, ?_, ?_, ?_, ?_⟩
    · rw [hany mpm1, hany mpm2]
    · intro g shards
      simp [MonitorSetup._get_metrics_data]
    · intro addr port st
      simp [MonitorSetup.start_server]
    · intro pid shards
      simp only [runAfterStop]
      rw [hany mpm1, hany mpm2]

/-- Witness for C8: two concrete `monitor` calls differing only in
`multiprocess_mode`. -/
theorem multiprocess_mode_param_no_influence_witness :
    monitor ⟨[], [], [], []⟩ false "url" false none "all" "/metrics" true none =
      Except.ok ⟨⟨[], [MiddlewareTag.metricsBefore], [MiddlewareTag.metricsAfter],
        [ListenerTag.beforeStart ⟨none, "all", none⟩]⟩, "/metrics", false⟩ ∧
    monitor ⟨[], [], [], []⟩ false "url" false none "livesum" "/metrics" true none =
      Except.ok ⟨⟨[], [MiddlewareTag.metricsBefore], [MiddlewareTag.metricsAfter],
        [ListenerTag.beforeStart ⟨none, "livesum", none⟩]⟩, "/metrics", false⟩ ∧
    (MonitorSetup.mk ⟨[], [MiddlewareTag.metricsBefore], [MiddlewareTag.metricsAfter],
        [ListenerTag.beforeStart ⟨none, "all", none⟩]⟩ "/metrics" false).multiprocessOn =
      false := by
  refine ⟨rfl, rfl, ?_⟩
  exact (multiprocess_mode_param_no_influence ⟨[], [], [], []⟩ false "url" false
    none "all" "livesum" "/metrics" true none
    ⟨⟨[], [MiddlewareTag.metricsBefore], [MiddlewareTag.metricsAfter],
      [ListenerTag.beforeStart ⟨none, "all", none⟩]⟩, "/metrics", false⟩
    ⟨⟨[], [MiddlewareTag.metricsBefore], [MiddlewareTag.metricsAfter],
      [ListenerTag.beforeStart ⟨none, "livesum", none⟩]⟩, "/metrics", false⟩
    rfl rfl).1

/-- C9: when `monitor` is called with `is_middleware` not `True`, neither
middleware is registered, so no request is instrumented and every request
leaves the metrics state unchanged, while the exposition endpoint and the
standalone server remain available and serve the registry's contents. -/
theorem no_middleware_no_instrumentation (app : App) (env : Bool)
    (et : String) (hfn : Bool) (lb : Option (List Nat)) (mpm : String)
    (mp : String) (ml : Option (List String)) (s : MonitorSetup)
    (hok : monitor app env et hfn lb mpm mp false ml = Except.ok s) :
    s.app.requestMiddlewares = app.requestMiddlewares ∧
    s.app.responseMiddlewares = app.responseMiddlewares ∧
    (∀ ge t0 t1 r resp st, processRequest false mp ge t0 t1 r resp st = st) ∧
    (∀ r, requestTrace false mp r = [Event.dispatch]) ∧
    (s.expose_endpoint).app.routes =
      s.app.routes ++ [{ path := mp, methods := ["GET"] }] ∧
    (∀ g shards, s._get_metrics_data g shards =
      (if env then generate_latest { collectors := [MultiProcessCollector shards] }
       else generate_latest g)) ∧
    (∀ addr port st, (s.start_server addr port st).2.isSome ↔ env = true) := by
  cases hfb : fn_by_type et hfn with
  | error e => simp [monitor, hfb] at hok
  | ok strat =>
    simp only [monitor, hfb, Except.ok.injEq] at hok
    subst hok
    refine ⟨by simp, by simp, ?_, ?_, rfl, ?_, ?_⟩
    · intro ge t0 t1 r resp st
      simp [processRequest]
    · intro r
      simp [requestTrace]
    · intro g shards
      cases env <;> simp [MonitorSetup._get_metrics_data]
    · intro addr port st
      cases env <;> simp [MonitorSetup.start_server]

/-- Witness for C9: a concrete `monitor` call with `is_middleware = False`. -/
theorem no_middleware_no_instrumentation_witness :
    monitor ⟨[], [], [], []⟩ false "url" false none "all" "/metrics" false none =
      Except.ok ⟨⟨[], [], [],
        [ListenerTag.beforeStart ⟨none, "all", none⟩]⟩, "/metrics", false⟩ ∧
    processRequest false "/metrics" (fun _ => "/a") 5 12
        ⟨"/a/b", "GET"⟩ ⟨200⟩ ⟨[], []⟩ = ⟨[], []⟩ ∧
    requestTrace false "/metrics" ⟨"/a/b", "GET"⟩ = [Event.dispatch] := by
  have h := no_middleware_no_instrumentation ⟨[], [], [], []⟩ false "url" false
    none "all" "/metrics" none
    ⟨⟨[], [], [], [ListenerTag.beforeStart ⟨none, "all", none⟩]⟩, "/metrics", false⟩
    rfl
  exact ⟨rfl, h.2.2.1 (fun _ => "/a") 5 12 ⟨"/a/b", "GET"⟩ ⟨200⟩ ⟨[], []⟩,
    h.2.2.2.1 ⟨"/a/b", "GET"⟩⟩

/-- C10: in single-process mode a scrape serializes the process-global
default registry — every sample of every collector registered there,
library-created or not, is part of what is serialized; in multiprocess
mode the scrape output is entirely independent of that global registry. -/
theorem single_process_scrape_serves_global_registry (m : MonitorSetup)
    (g : CollectorRegistry) (shards : List Shard) :
    (m.multiprocessOn = false →
      m._get_metrics_data g shards = generate_latest g) ∧
    (∀ c, c ∈ g.collectors → ∀ s, s ∈ c.samples → s ∈ registrySamples g) ∧
    (m.multiprocessOn = true →
      ∀ g2, m._get_metrics_data g shards = m._get_metrics_data g2 shards) := by
  refine ⟨?_, ?_, ?_⟩
  · intro h
    simp [MonitorSetup._get_metrics_data, h]
  · intro c hc s hs
    simp only [registrySamples, List.mem_flatten, List.mem_map]
    exact ⟨c.samples, ⟨c, hc, rfl⟩, hs⟩
  · intro h g2
    simp [MonitorSetup._get_metrics_data, h]

/-- Witness for C10: a single-process scrape over a registry holding a
collector the library did not create, and a multiprocess scrape ignoring
two different global registries. -/
theorem single_process_scrape_serves_global_registry_witness :
    (MonitorSetup.mk ⟨[], [], [], []⟩ "/metrics" false)._get_metrics_data
        ⟨[⟨[⟨"foreign_metric", [], 5⟩]⟩]⟩ [] =
      generate_latest ⟨[⟨[⟨"foreign_metric", [], 5⟩]⟩]⟩ ∧
    (⟨"foreign_metric", [], 5⟩ : Sample) ∈
      registrySamples ⟨[⟨[⟨"foreign_metric", [], 5⟩]⟩]⟩ ∧
    (MonitorSetup.mk ⟨[], [], [], []⟩ "/metrics" true)._get_metrics_data
        ⟨[⟨[⟨"foreign_metric", [], 5⟩]⟩]⟩ [] =
      (MonitorSetup.mk ⟨[], [], [], []⟩ "/metrics" true)._get_metrics_data
        ⟨[]⟩ [] := by
  have h := single_process_scrape_serves_global_registry
    (MonitorSetup.mk ⟨[], [], [], []⟩ "/metrics" false)
    ⟨[⟨[⟨"foreign_metric", [], 5⟩]⟩]⟩ []
  have h2 := single_process_scrape_serves_global_registry
    (MonitorSetup.mk ⟨[], [], [], []⟩ "/metrics" true)
    ⟨[⟨[⟨"foreign_metric", [], 5⟩]⟩]⟩ []
  exact ⟨h.1 rfl,
    h.2.1 ⟨[⟨"foreign_metric", [], 5⟩]⟩ (by simp)
      ⟨"foreign_metric", [], 5⟩ (by simp),
    h2.2.2 rfl ⟨[]⟩⟩

/-! ### Properties of the `url:n` truncating resolver -/

/-- Consuming a separator-free prefix only extends the accumulator. -/
theorem segsAux_append_no_slash (s : List Char) :
    ∀ (cs acc : List Char), (∀ c ∈ s, c ≠ '/') →
      segsAux (s ++ cs) acc = segsAux cs (s.reverse ++ acc) := by
  induction s with
  | nil =>
    intro cs acc _
    simp
  | cons c s ih =>
    intro cs acc hs
    have hc : c ≠ '/' := hs c (by simp)
    simp only [List.cons_append, segsAux, if_neg hc]
    exact (ih cs (c :: acc) (fun d hd => hs d (by simp [hd]))).trans (by simp)

/-- Every segment produced by the splitter is non-empty and separator-free
(given a separator-free accumulator). -/
theorem segsAux_elems : ∀ (cs acc : List Char), (∀ c ∈ acc, c ≠ '/') →
    ∀ x ∈ segsAux cs acc, x ≠ [] ∧ ∀ c ∈ x, c ≠ '/' := by
  intro cs
  induction cs with
  | nil =>
    intro acc hacc x hx
    by_cases h : acc = []
    · simp [segsAux, h] at hx
    · simp only [segsAux, if_neg h, List.mem_singleton] at hx
      subst hx
      refine ⟨by simpa using h, ?_⟩
      intro c hc
      exact hacc c (by simpa using hc)
  | cons c cs ih =>
    intro acc hacc x hx
    by_cases hc : c = '/'
    · by_cases h : acc = []
      · rw [show segsAux (c :: cs) acc =
            (if c = '/' then (if acc = [] then segsAux cs []
              else acc.reverse :: segsAux cs []) else segsAux cs (c :: acc))
            from rfl, if_pos hc, if_pos h] at hx
        exact ih [] (by simp) x hx
      · rw [show segsAux (c :: cs) acc =
            (if c = '/' then (if acc = [] then segsAux cs []
              else acc.reverse :: segsAux cs []) else segsAux cs (c :: acc))
            from rfl, if_pos hc, if_neg h] at hx
        rcases List.mem_cons.mp hx with hx | hx
        · subst hx
          refine ⟨by simpa using h, ?_⟩
          intro d hd
          exact hacc d (by simpa using hd)
        · exact ih [] (by simp) x hx
    · rw [show segsAux (c :: cs) acc =
          (if c = '/' then (if acc = [] then segsAux cs []
            else acc.reverse :: segsAux cs []) else segsAux cs (c :: acc))
          from rfl, if_neg hc] at hx
      refine ih (c :: acc) ?_ x hx
      intro d hd
      rcases List.mem_cons.mp hd with hd | hd
      · exact hd ▸ hc
      · exact hacc d hd

/-- Splitting a rejoined tail with a pending non-empty segment first emits
that segment. -/
theorem segsAux_joinSegments (t : List (List Char)) (s : List Char)
    (hs : s ≠ []) :
    segsAux (joinSegments t) s.reverse = s :: pathSegments (joinSegments t) := by
  have hrev : ¬s.reverse = [] := by simpa using hs
  cases t with
  | nil =>
    simp [joinSegments, segsAux, pathSegments, hrev]
  | cons u t =>
    show segsAux ('/' :: (u ++ joinSegments t)) s.reverse = _
    rw [show segsAux ('/' :: (u ++ joinSegments t)) s.reverse =
        (if ('/' : Char) = '/' then (if s.reverse = [] then
          segsAux (u ++ joinSegments t) []
          else s.reverse.reverse :: segsAux (u ++ joinSegments t) [])
        else segsAux (u ++ joinSegments t) ('/' :: s.reverse)) from rfl,
      if_pos rfl, if_neg hrev]
    have : pathSegments ('/' :: (u ++ joinSegments t)) =
        segsAux (u ++ joinSegments t) [] := by
      simp [pathSegments, segsAux]
    rw [List.reverse_reverse]
    exact congrArg (s :: ·) this.symm

/-- Splitting inverts rejoining on lists of non-empty separator-free
segments. -/
theorem pathSegments_joinSegments (l : List (List Char))
    (hl : ∀ s ∈ l, s ≠ [] ∧ ∀ c ∈ s, c ≠ '/') :
    pathSegments (joinSegments l) = l := by
  induction l with
  | nil => rfl
  | cons s t ih =>
    have hs := hl s (by simp)
    have ht : ∀ x ∈ t, x ≠ [] ∧ ∀ c ∈ x, c ≠ '/' :=
      fun x hx => hl x (by simp [hx])
    show pathSegments ('/' :: (s ++ joinSegments t)) = s :: t
    have h1 : pathSegments ('/' :: (s ++ joinSegments t)) =
        segsAux (s ++ joinSegments t) [] := by
      simp [pathSegments, segsAux]
    rw [h1, segsAux_append_no_slash s (joinSegments t) [] hs.2,
      List.append_nil, segsAux_joinSegments t s hs.1, ih ht]

/-- C6 (amended): for every truncation bound `n ≥ 1` the `url:n` resolver
returns a label with at most `n` path segments, returns the path unchanged
when it has at most `n` non-empty segments, agrees with the resolver
applied to a request's path, and is prefix-consistent among paths with more
than `n` segments: two such paths sharing the same first `n` non-empty
segments resolve to the same label. -/
theorem urlTruncate_bounded_and_prefix_consistent (n : Nat) (p q : List Char)
    (_hn : 1 ≤ n) :
    (pathSegments (urlTruncate n p)).length ≤ n ∧
    ((pathSegments p).length ≤ n → urlTruncate n p = p) ∧
    (∀ (cf : Request → String) (mth : String),
      resolveEndpoint (EndpointStrategy.urlTruncate n) cf ⟨String.mk p, mth⟩ =
        String.mk (urlTruncate n p)) ∧
    (n < (pathSegments p).length → n < (pathSegments q).length →
      (pathSegments p).take n = (pathSegments q).take n →
      urlTruncate n p = urlTruncate n q) := by
  refine ⟨?_, ?_, fun cf mth => rfl, ?_⟩
  · by_cases h : (pathSegments p).length ≤ n
    · simp only [urlTruncate, if_pos h]
      exact h
    · have hmem : ∀ s ∈ (pathSegments p).take n, s ≠ [] ∧ ∀ c ∈ s, c ≠ '/' := by
        intro s hs
        exact segsAux_elems p [] (by simp) s (List.take_subset n _ hs)
      simp only [urlTruncate, if_neg h]
      rw [pathSegments_joinSegments _ hmem, List.length_take]
      exact Nat.min_le_left n _
  · intro h
    simp [urlTruncate, h]
  · intro hp hq hpq
    simp only [urlTruncate, if_neg (not_le.mpr hp), if_neg (not_le.mpr hq), hpq]

/-- Counterexample for C6 as stated: with `n = 1`, the paths `"/a/"` and
`"/a/b"` share the same first non-empty segment yet resolve to different
labels (`"/a/"` has only one segment and is returned verbatim with its
trailing separator, `"/a/b"` is truncated to `"/a"`). -/
theorem urlTruncate_prefix_consistency_counterexample :
    1 ≤ 1 ∧
    (pathSegments ['/', 'a', '/']).take 1 =
      (pathSegments ['/', 'a', '/', 'b']).take 1 ∧
    urlTruncate 1 ['/', 'a', '/'] ≠ urlTruncate 1 ['/', 'a', '/', 'b'] := by
  refine ⟨Nat.le_refl 1, ?_, ?_⟩ <;> decide

/-- Witness for C6 (amended) at `n = 1` on the paths of the spec's own
scenario. -/
theorem urlTruncate_bounded_and_prefix_consistent_witness :
    1 ≤ 1 ∧
    (pathSegments (urlTruncate 1 ['/', 'u', '/', '4', '/', 'o'])).length ≤ 1 ∧
    urlTruncateStr 1 "/users/42/orders" = "/users" := by
  have h := urlTruncate_bounded_and_prefix_consistent 1
    ['/', 'u', '/', '4', '/', 'o'] [] (Nat.le_refl 1)
  refine ⟨Nat.le_refl 1, h.1, ?_⟩
  decide

end PrometheusSanic
